import Mathlib

/-!
Verification development for the New Brunswick energy IoT data simulator
(`src/simulate_data.py`).  The simulator's numeric core is embedded shallowly
over `ℚ`: every call to Python's `datetime.now()` becomes an explicit `DT`
argument (the pass-level generator threads a clock stream `ℕ → DT`, one sample
per `now()` call site, in source order), and every random draw becomes an
explicit field of a draws structure, constrained by range hypotheses where a
claim needs them.  Python's `round(x, n)` (round-half-to-even) is modelled
exactly on rationals.
-/

namespace MockController

/-- Round-half-to-even to an integer, as Python's builtin `round` does. -/
def roundHalfEven (q : ℚ) : ℤ :=
  let f : ℤ := ⌊q⌋
  let r : ℚ := q - (f : ℚ)
  if r < 1/2 then f
  else if 1/2 < r then f + 1
  else if f % 2 = 0 then f else f + 1

/-- Python's `round(x, 2)`: round-half-to-even at two decimal places. -/
def round2 (q : ℚ) : ℚ := (roundHalfEven (q * 100) : ℚ) / 100

/-- A wall-clock sample: one result of `datetime.datetime.now()`.  `epoch` is
the absolute time in seconds (used for interval arithmetic on `timedelta`s);
the remaining fields mirror the attributes the simulator reads.  Weekday is
Python's convention, 0 = Monday. -/
structure DT where
  epoch : ℚ
  month : ℕ
  day : ℕ
  weekday : ℕ
  hour : ℕ
  minute : ℕ
  second : ℕ
  deriving DecidableEq, Repr

/-- Locations keyed in `location_factors`; `other` is any key missing from the
dictionary (the `.get(location, 1.0)` default). -/
inductive Loc where
  | fredericton
  | saintJohn
  | moncton
  | other
  deriving DecidableEq, Repr

/-- `location_factors` dictionary with its `.get(location, 1.0)` default. -/
def locationFactor : Loc → ℚ
  | .fredericton => 1.0
  | .saintJohn => 1.02
  | .moncton => 0.98
  | .other => 1.0

/-- `base_hourly_factors`, the 24-entry weekday usage table, with the
`.get(hour, 0.75)` default for out-of-range keys. -/
def baseHourlyFactor : ℕ → ℚ
  | 0 => 0.65 | 1 => 0.55 | 2 => 0.50 | 3 => 0.45 | 4 => 0.50 | 5 => 0.70
  | 6 => 0.85 | 7 => 1.10 | 8 => 1.20 | 9 => 1.05 | 10 => 0.85 | 11 => 0.80
  | 12 => 0.75 | 13 => 0.70 | 14 => 0.65 | 15 => 0.70 | 16 => 0.85 | 17 => 1.05
  | 18 => 1.20 | 19 => 1.15 | 20 => 1.00 | 21 => 0.90 | 22 => 0.80 | 23 => 0.70
  | _ => 0.75

/-- `weekend_adjustments` applied over `base_hourly_factors` (keys 6..16). -/
def weekendHourlyFactor : ℕ → ℚ
  | 6 => 0.70 | 7 => 0.80 | 8 => 0.90 | 9 => 1.00 | 10 => 1.05
  | 11 => 0.95 | 12 => 0.90 | 13 => 0.85 | 14 => 0.80 | 15 => 0.85 | 16 => 0.95
  | h => baseHourlyFactor h

/-- The usage table after the in-place weekend mutation of the source. -/
def hourlyUsageFactor (isWeekend : Bool) (h : ℕ) : ℚ :=
  if isWeekend then weekendHourlyFactor h else baseHourlyFactor h

/-- `base_solar_factors` with its `.get(hour, 0)` default. -/
def baseSolarFactor : ℕ → ℚ
  | 0 => 0 | 1 => 0 | 2 => 0 | 3 => 0 | 4 => 0 | 5 => 0
  | 6 => 0.02 | 7 => 0.15 | 8 => 0.30 | 9 => 0.45 | 10 => 0.60 | 11 => 0.70
  | 12 => 0.75 | 13 => 0.75 | 14 => 0.65 | 15 => 0.50 | 16 => 0.35 | 17 => 0.15
  | 18 => 0.02 | 19 => 0 | 20 => 0 | 21 => 0 | 22 => 0 | 23 => 0
  | _ => 0

/-- `ev_connection_factors` (weekday) with its `.get(hour, 0.5)` default. -/
def baseEvFactor : ℕ → ℚ
  | 0 => 0.85 | 1 => 0.90 | 2 => 0.90 | 3 => 0.90 | 4 => 0.80 | 5 => 0.70
  | 6 => 0.50 | 7 => 0.30 | 8 => 0.20 | 9 => 0.30 | 10 => 0.35 | 11 => 0.35
  | 12 => 0.30 | 13 => 0.30 | 14 => 0.35 | 15 => 0.35 | 16 => 0.30 | 17 => 0.25
  | 18 => 0.30 | 19 => 0.45 | 20 => 0.60 | 21 => 0.75 | 22 => 0.80 | 23 => 0.85
  | _ => 0.5

/-- `weekend_ev_adjustments` applied over `ev_connection_factors` (keys 9..16). -/
def evConnectionFactor (isWeekend : Bool) (h : ℕ) : ℚ :=
  if isWeekend ∧ 9 ≤ h ∧ h ≤ 16 then
    match h with
    | 9 => 0.40 | 10 => 0.45 | 11 => 0.45 | 12 => 0.40 | 13 => 0.40
    | 14 => 0.45 | 15 => 0.45 | _ => 0.40
  else baseEvFactor h

/-- `battery_discharge_factors` with its `.get(hour, 0.2)` default. -/
def batteryDischargeFactor : ℕ → ℚ
  | 0 => 0.15 | 1 => 0.10 | 2 => 0.05 | 3 => 0.05 | 4 => 0.10 | 5 => 0.20
  | 6 => 0.40 | 7 => 0.55 | 8 => 0.50 | 9 => 0.30 | 10 => 0.15 | 11 => 0.10
  | 12 => 0.05 | 13 => 0.05 | 14 => 0.10 | 15 => 0.20 | 16 => 0.35 | 17 => 0.60
  | 18 => 0.70 | 19 => 0.65 | 20 => 0.45 | 21 => 0.35 | 22 => 0.25 | 23 => 0.20
  | _ => 0.2

/-- The struct returned by `get_nb_seasonal_factors`. -/
structure Factors where
  usage : ℚ
  solar : ℚ
  ev : ℚ
  battery : ℚ
  timeOfDay : ℚ
  isWeekend : Bool
  deriving DecidableEq, Repr

/-- `get_nb_seasonal_factors(location)`: pure temporal factor model.  The one
`datetime.now()` the source function performs is the explicit argument `t`. -/
def get_nb_seasonal_factors (t : DT) (loc : Loc) : Factors :=
  let hour := t.hour
  let minute := t.minute
  let isWeekend : Bool := decide (t.weekday ≥ 5)
  let lf := locationFactor loc
  let hourFactor0 := hourlyUsageFactor isWeekend hour * lf
  let hourFactor :=
    if minute < 15 ∧ hour > 0 then
      let prevFactor := hourlyUsageFactor isWeekend (hour - 1) * lf
      let blendAmt : ℚ := (15 - (minute : ℚ)) / 15
      hourFactor0 * (1 - blendAmt) + prevFactor * blendAmt
    else if minute > 45 then
      let nextFactor := hourlyUsageFactor isWeekend ((hour + 1) % 24) * lf
      let blendAmt : ℚ := ((minute : ℚ) - 45) / 15
      hourFactor0 * (1 - blendAmt) + nextFactor * blendAmt
    else hourFactor0
  let solarFactor0 := baseSolarFactor hour
  let solarFactor :=
    if minute < 20 ∧ hour > 0 ∧ 0 < solarFactor0 then
      let prevFactor := baseSolarFactor (hour - 1)
      let blendAmt : ℚ := (20 - (minute : ℚ)) / 20
      solarFactor0 * (1 - blendAmt) + prevFactor * blendAmt
    else if minute > 40 ∧ 0 < solarFactor0 then
      let nextFactor := baseSolarFactor ((hour + 1) % 24)
      let blendAmt : ℚ := ((minute : ℚ) - 40) / 20
      solarFactor0 * (1 - blendAmt) + nextFactor * blendAmt
    else solarFactor0
  let daySeed : ℤ := (t.day : ℤ) + (t.month : ℤ) * 31
  let baseWeatherFactor : ℚ := (((daySeed * 9973) % 1000 : ℤ) : ℚ) / 1000
  let dailyWeather : ℚ := 0.7 + baseWeatherFactor * 0.6
  { usage := hourFactor
    solar := solarFactor * dailyWeather
    ev := evConnectionFactor isWeekend hour
    battery := batteryDischargeFactor hour
    timeOfDay := (hour : ℚ) + (minute : ℚ) / 60
    isWeekend := isWeekend }

/-- Per-project weather cache entry (`weather_cache[project_id]`). -/
structure WeatherState where
  lastUpdate : Option ℚ
  pattern : ℚ
  deriving DecidableEq, Repr

/-- Random draws one call of `update_weather_pattern` can make:
`randint(300, 900)`, `gauss(1.0, 0.2)` and `random()`. -/
structure WDraws where
  interval : ℚ
  gaussSample : ℚ
  fluct : ℚ
  deriving DecidableEq, Repr

/-- `update_weather_pattern(project_id)`: returns the jittered weather factor
and the updated cache entry.  Its single `datetime.now()` is `t`. -/
def update_weather_pattern (t : DT) (d : WDraws) (s : WeatherState) :
    ℚ × WeatherState :=
  let s' :=
    match s.lastUpdate with
    | none =>
      { lastUpdate := some t.epoch, pattern := min 1.5 (max 0.6 d.gaussSample) }
    | some lu =>
      if t.epoch - lu > d.interval then
        let newPattern := min 1.5 (max 0.6 d.gaussSample)
        let secondsSince := t.epoch - lu
        let blendAmt := min 1 (secondsSince / 180)
        { lastUpdate := some t.epoch
          pattern := s.pattern * (1 - blendAmt) + newPattern * blendAmt }
      else s
  let minorFluctuation := 0.98 + d.fluct * 0.04
  (s'.pattern * minorFluctuation, s')

/-- Per-project appliance event entry (`appliance_events[project_id]`). -/
structure ApplianceEvent where
  active : Bool
  endTime : Option ℚ
  magnitude : ℚ
  deriving DecidableEq, Repr

/-- Random draws one call of `check_appliance_events` can make. -/
structure ADraws where
  startRoll : ℚ
  duration : ℚ
  tierRoll : ℚ
  magSmall : ℚ
  magMed : ℚ
  magLarge : ℚ
  deriving DecidableEq, Repr

/-- `event['active'] and event['end_time'] > now` (line 298); the lazy `and`
protects the `None` comparison exactly as in the source. -/
def eventLive (e : ApplianceEvent) (now : ℚ) : Bool :=
  e.active && match e.endTime with
    | some et => decide (now < et)
    | none => false

/-- `check_appliance_events(project_id)`: returns the event factor, the
updated event entry, and the updated `last_appliance_check` timestamp.  Its
single `datetime.now()` is `t`. -/
def check_appliance_events (t : DT) (d : ADraws) (s : ApplianceEvent)
    (lastCheck : ℚ) : ℚ × ApplianceEvent × ℚ :=
  if t.epoch - lastCheck < 30 then
    ((if eventLive s t.epoch then s.magnitude else 1), s, lastCheck)
  else
    let lastCheck' := t.epoch
    let ended : Bool := s.active && match s.endTime with
      | some et => decide (et < t.epoch)
      | none => false
    let s1 := if ended then { s with active := false } else s
    let s2 :=
      if s1.active = false ∧ d.startRoll < 0.15 then
        let magnitude :=
          if d.tierRoll < 0.7 then d.magSmall
          else if d.tierRoll < 0.95 then d.magMed
          else d.magLarge
        { active := true, endTime := some (t.epoch + d.duration),
          magnitude := magnitude : ApplianceEvent }
      else s1
    ((if s2.active then s2.magnitude else 1), s2, lastCheck')

/-- Per-project consumption trend entry (`consumption_trends[project_id]`). -/
structure TrendState where
  trend : ℚ
  nextChange : ℚ
  deriving DecidableEq, Repr

/-- Random draws one call of `update_consumption_trend` can make:
`randint(10, 30)` minutes and `uniform(0.92, 1.08)`. -/
structure TDraws where
  intervalMinutes : ℚ
  target : ℚ
  deriving DecidableEq, Repr

/-- `update_consumption_trend(project_id)`.  Its single `datetime.now()`
is `t`. -/
def update_consumption_trend (t : DT) (d : TDraws) (s : TrendState) :
    ℚ × TrendState :=
  if t.epoch ≥ s.nextChange then
    let s' : TrendState :=
      { nextChange := t.epoch + d.intervalMinutes * 60
        trend := s.trend * 0.7 + d.target * 0.3 }
    (s'.trend, s')
  else (s.trend, s)

/-- `generate_solar_output(capacity, controller_index)`.  The three
`datetime.now()` calls it can perform are, in source order: `tF` inside
`get_nb_seasonal_factors`, `tW` inside `update_weather_pattern`, and `tN` for
the second-granularity noise term.  On the night early-return (`solar <= 0`)
only `tF` is read and the weather cache is untouched. -/
def generate_solar_output (cap : ℚ) (loc : Loc) (tF tW tN : DT)
    (d : WDraws) (ws : WeatherState) : ℚ × WeatherState :=
  let factors := get_nb_seasonal_factors tF loc
  if factors.solar ≤ 0 then (0, ws)
  else
    let wres := update_weather_pattern tW d ws
    let weatherFactor := wres.1
    let baseOutput := cap * factors.solar
    let weatherAdjusted := baseOutput * weatherFactor
    let noise : ℚ := 0.97 + ((tN.second % 6 : ℕ) : ℚ) / 100
    (round2 (max 0 (weatherAdjusted * noise)), wres.2)

/-- `soc_factor = 0.5 + (current_soc / 200)` (line 391). -/
def soc_factor (soc : ℚ) : ℚ := 0.5 + soc / 200

/-- `generate_battery_output(capacity, current_soc, controller_index)`.  Its
two `datetime.now()` calls are `tF` (inside `get_nb_seasonal_factors`) and
`tN` (minute-granularity variation). -/
def generate_battery_output (cap soc : ℚ) (loc : Loc) (tF tN : DT) : ℚ :=
  let factors := get_nb_seasonal_factors tF loc
  if soc < 10 then 0
  else
    let baseDischargeRate := factors.battery
    let dischargeRate := baseDischargeRate * soc_factor soc
    let minuteVariation : ℚ := 0.95 + ((tN.minute % 10 : ℕ) : ℚ) / 100
    let output := cap * dischargeRate * minuteVariation
    round2 (min output (cap * 0.8))

/-- The pseudo-random connectivity variate of `generate_ev_output`:
`minute_of_day` is `int(factors['time_of_day'] * 60)` computed from the `tF`
clock read, `rand_seed` adds `day * 1440` from the separate `tD` clock read. -/
def ev_rand_val (tF tD : DT) (loc : Loc) : ℚ :=
  let factors := get_nb_seasonal_factors tF loc
  let minuteOfDay : ℤ := ⌊factors.timeOfDay * 60⌋
  let randSeed : ℤ := minuteOfDay + (tD.day : ℤ) * 1440
  (((randSeed * 9973) % 1000 : ℤ) : ℚ) / 1000

/-- The peak-hours test of line 424; each side of the `or` performs its own
`datetime.now()` call (`tH1`, `tH2`). -/
def ev_peak_hours (tH1 tH2 : DT) : Prop :=
  (7 ≤ tH1.hour ∧ tH1.hour ≤ 9) ∨ (17 ≤ tH2.hour ∧ tH2.hour ≤ 20)

instance (tH1 tH2 : DT) : Decidable (ev_peak_hours tH1 tH2) := by
  unfold ev_peak_hours; infer_instance

/-- `generate_ev_output(capacity, controller_index)`.  Clock reads in source
order: `tF` (factors), `tD` (day for the seed), `tH1`/`tH2` (the two
peak-hour tests; `tH2` is only reached when the first disjunct is false). -/
def generate_ev_output (cap : ℚ) (loc : Loc) (tF tD tH1 tH2 : DT) : ℚ :=
  let factors := get_nb_seasonal_factors tF loc
  let randVal := ev_rand_val tF tD loc
  let isConnected := randVal < factors.ev
  if ¬ isConnected then 0
  else
    let v2gFactor : ℚ :=
      if ev_peak_hours tH1 tH2 then 0.15 + randVal * 0.1
      else 0.05 + randVal * 0.05
    round2 (cap * v2gFactor)

/-- `calculate_power_meter(base_load, der_output, controller_index,
apply_violation)`.  Clock reads in source order: `tF` (factors), `tT` (inside
`update_consumption_trend`), `tA` (inside `check_appliance_events`), `tN`
(noise seed).  Returns the meter value and the updated trend, appliance and
last-check state. -/
def calculate_power_meter (baseLoad derOutput : ℚ) (applyViolation : Bool)
    (multiplier : ℚ) (loc : Loc) (tF tT tA tN : DT) (td : TDraws)
    (ad : ADraws) (ts : TrendState) (ae : ApplianceEvent) (lastCheck : ℚ) :
    ℚ × TrendState × ApplianceEvent × ℚ :=
  let factors := get_nb_seasonal_factors tF loc
  let adjustedLoad0 := baseLoad * factors.usage
  let tres := update_consumption_trend tT td ts
  let adjustedLoad1 := adjustedLoad0 * tres.1
  let ares := check_appliance_events tA ad ae lastCheck
  let adjustedLoad2 := adjustedLoad1 * ares.1
  let noiseSeed : ℕ := tN.second + tN.minute * 60
  let noiseFactor : ℚ := 0.98 + (((noiseSeed * 3) % 5 : ℕ) : ℚ) / 100
  let effectiveDerOutput := if applyViolation then derOutput / multiplier
    else derOutput
  (round2 (max 0 (adjustedLoad2 * noiseFactor - effectiveDerOutput)),
    tres.2, ares.2.1, ares.2.2)

/-- DER types appearing in `CONTROLLERS`. -/
inductive DERType where
  | solar
  | battery
  | ev
  deriving DecidableEq, Repr

/-- One entry of a controller's `ders` list (`der_id` is parsed with `int()`
for the SOC seed, so it is carried as an integer). -/
structure DERSpec where
  derId : ℤ
  type : DERType
  nameplateCapacity : ℚ
  deriving DecidableEq, Repr

/-- One entry of `CONTROLLERS`. -/
structure Controller where
  projectId : String
  baseline : ℚ
  contractThreshold : ℚ
  loc : Loc
  ders : List DERSpec
  deriving DecidableEq, Repr

/-- The per-DER JSON record built by `generate_data` (the fields that carry
simulation content; constant strings like `units` and `connection_start_at`
are omitted).  `timestamp` keeps the `DT` that the formatted string is
printed from. -/
structure DERData where
  derId : ℤ
  isOnline : Bool
  timestamp : DT
  currentOutput : ℚ
  powerMeter : ℚ
  baseline : ℚ
  contractThreshold : ℚ
  projectId : String
  currentSoc : ℚ
  type : DERType
  nameplateCapacity : ℚ
  deriving DecidableEq, Repr

/-- The SOC computation of `generate_data` (lines 483..514), a pure function
of the pass timestamp `current_time` and the DER id. -/
def compute_soc (t0 : DT) (derId : ℤ) : ℚ :=
  let hour := t0.hour
  let daySeed : ℤ := (t0.day : ℤ) + (t0.month : ℤ) * 31
  let baseSoc : ℚ :=
    if hour < 6 then 65 + (hour : ℚ) * 3
    else if hour < 9 then 80 - ((hour : ℚ) - 6) * 6
    else if hour < 15 then 62 + ((hour : ℚ) - 9) * 3
    else if hour < 21 then 80 - ((hour : ℚ) - 15) * 5
    else 50 + ((hour : ℚ) - 21) * 3
  let controllerOffset : ℤ := (derId + daySeed) % 10 - 5
  let minuteVariation : ℚ := ((t0.minute : ℚ) / 60) * 6 - 3
  max 10 (min 95 (baseSoc + (controllerOffset : ℚ) + minuteVariation))

/-- Append to a `collections.deque(maxlen=300)` (head of the list is the
oldest entry): when the deque is full the leftmost entry is evicted. -/
def readingsPush (l : List (DT × ℚ)) (x : DT × ℚ) : List (DT × ℚ) :=
  if l.length ≥ 300 then l.tail ++ [x] else l ++ [x]

/-- All mutable per-project state touched by one `generate_data` pass. -/
structure GenState where
  weather : WeatherState
  trend : TrendState
  appliance : ApplianceEvent
  lastCheck : ℚ
  history : List (DT × ℚ)
  deriving DecidableEq, Repr

/-- The body of `generate_data`'s `for der in controller['ders']` loop for a
single DER.  `t0` is the pass timestamp (`current_time`, clock sample 0);
`clock` yields the later `datetime.now()` results and `k` is the index of the
next unread sample.  Returns the emitted record, the updated state, and the
index after this DER's reads (mirroring Python's lazy `or` in the EV
peak-hour test, which skips the second clock read when the first disjunct is
true). -/
def generate_der_record (ctrl : Controller) (applyViolation : Bool)
    (multiplier : ℚ) (t0 : DT) (clock : ℕ → DT) (wd : WDraws) (td : TDraws)
    (ad : ADraws) (k : ℕ) (st : GenState) (der : DERSpec) :
    DERData × GenState × ℕ :=
  let currentSoc : ℚ :=
    match der.type with
    | .battery => compute_soc t0 der.derId
    | _ => 0
  let outStep : ℚ × WeatherState × ℕ :=
    match der.type with
    | .solar =>
      let factors := get_nb_seasonal_factors (clock k) ctrl.loc
      let sres := generate_solar_output der.nameplateCapacity ctrl.loc
        (clock k) (clock (k + 1)) (clock (k + 2)) wd st.weather
      (sres.1, sres.2, if factors.solar ≤ 0 then k + 1 else k + 3)
    | .battery =>
      (generate_battery_output der.nameplateCapacity currentSoc ctrl.loc
        (clock k) (clock (k + 1)), st.weather, k + 2)
    | .ev =>
      let factors := get_nb_seasonal_factors (clock k) ctrl.loc
      let randVal := ev_rand_val (clock k) (clock (k + 1)) ctrl.loc
      let out := generate_ev_output der.nameplateCapacity ctrl.loc
        (clock k) (clock (k + 1)) (clock (k + 2)) (clock (k + 3))
      let k' :=
        if ¬ randVal < factors.ev then k + 2
        else if 7 ≤ (clock (k + 2)).hour ∧ (clock (k + 2)).hour ≤ 9 then k + 3
        else k + 4
      (out, st.weather, k')
  let currentOutput := outStep.1
  let k1 := outStep.2.2
  let pres := calculate_power_meter ctrl.baseline currentOutput applyViolation
    multiplier ctrl.loc (clock k1) (clock (k1 + 1)) (clock (k1 + 2))
    (clock (k1 + 3)) td ad st.trend st.appliance st.lastCheck
  let derData : DERData :=
    { derId := der.derId
      isOnline := true
      timestamp := t0
      currentOutput := round2 currentOutput
      powerMeter := round2 pres.1
      baseline := ctrl.baseline
      contractThreshold := ctrl.contractThreshold
      projectId := ctrl.projectId
      currentSoc := (roundHalfEven currentSoc : ℚ)
      type := der.type
      nameplateCapacity := der.nameplateCapacity }
  let st' : GenState :=
    { st with
      weather := outStep.2.1
      trend := pres.2.1
      appliance := pres.2.2.1
      lastCheck := pres.2.2.2 }
  (derData, st', k1 + 4)

/-- Folding step of `generate_data`: accumulator is
(records, state, next clock index, DER position for the draw streams). -/
def generate_data_step (ctrl : Controller) (applyViolation : Bool)
    (multiplier : ℚ) (t0 : DT) (clock : ℕ → DT) (wd : ℕ → WDraws)
    (td : ℕ → TDraws) (ad : ℕ → ADraws)
    (acc : List DERData × GenState × ℕ × ℕ) (der : DERSpec) :
    List DERData × GenState × ℕ × ℕ :=
  let res := generate_der_record ctrl applyViolation multiplier t0 clock
    (wd acc.2.2.2) (td acc.2.2.2) (ad acc.2.2.2) acc.2.2.1 acc.2.1 der
  (acc.1 ++ [res.1], res.2.1, res.2.2, acc.2.2.2 + 1)

/-- `generate_data(controller_index)`: one full generation pass.
`current_time` is the single UTC read `clock 0`; every further
`datetime.now()` of the helpers consumes the subsequent samples.  The pass
returns the emitted record list and the updated project state, whose history
has the `(current_time, net_consumption)` pair appended. -/
def generate_data (ctrl : Controller) (violationEnabled : Bool)
    (multiplier : ℚ) (clock : ℕ → DT) (wd : ℕ → WDraws) (td : ℕ → TDraws)
    (ad : ℕ → ADraws) (st0 : GenState) : List DERData × GenState :=
  let t0 := clock 0
  let applyViolation := violationEnabled
  let out := ctrl.ders.foldl
    (generate_data_step ctrl applyViolation multiplier t0 clock wd td ad)
    ([], st0, 1, 0)
  let records := out.1
  let netConsumption :=
    (records.map (fun item => item.powerMeter - item.currentOutput)).sum
  let st := out.2.1
  (records,
    { st with history := readingsPush st.history (t0, netConsumption) })

/-- `CONTROLLERS[0]`: the Fredericton home with two batteries and one solar
array. -/
def controller0 : Controller :=
  { projectId := "492e323a-b7c5-48ff-bcf7-36ffd170f409"
    baseline := 18
    contractThreshold := 15
    loc := .fredericton
    ders :=
      [ { derId := 11, type := .battery, nameplateCapacity := 10 }
      , { derId := 12, type := .solar, nameplateCapacity := 8 }
      , { derId := 13, type := .battery, nameplateCapacity := 5 } ] }

/-- The maximum inter-hour delta of the weekday base hourly table, the
quantity the spec's blend-tolerance property is phrased in (the table is
treated cyclically, hour 23 wrapping to hour 0). -/
def maxInterHourDelta : ℚ :=
  ((List.range 24).map
    (fun h => |baseHourlyFactor ((h + 1) % 24) - baseHourlyFactor h|)).foldr max 0

/-! ### Concrete inputs used by counterexamples and witnesses -/

/-- Time input for the C3 counterexample: March 19 (daily weather 1.2856),
a weekday, 12:30:05 (solar table peak, no blending, noise 1.02). -/
def c3Time : DT := ⟨1000, 3, 19, 2, 12, 30, 5⟩

/-- Weather state for the C3 counterexample: pattern at its maximum 1.5,
refreshed 10 seconds ago so no update fires. -/
def c3Weather : WeatherState := ⟨some 990, 1.5⟩

/-- Weather draws for the C3 counterexample: jitter draw 0.99 gives a minor
fluctuation of 1.0196. -/
def c3Draws : WDraws := ⟨600, 1, 99/100⟩

/-- Time input for the C4 counterexample: hour 18 (discharge factor 0.7),
minute 9 (variation 1.04), a weekday. -/
def c4Time : DT := ⟨0, 3, 1, 2, 18, 9, 0⟩

/-- Time input for the C10 counterexample: day 12, 20:20 gives connectivity
variate 0.5 < 0.6 (connected) inside the evening peak band. -/
def c10Time : DT := ⟨0, 3, 12, 0, 20, 20, 0⟩

/-- First clock sample for the C7 counterexample: 18:30 on a March weekday. -/
def c7TimeA : DT := ⟨1000, 3, 12, 2, 18, 30, 0⟩

/-- Alternative later clock sample for the C7 counterexample: same instant
except the hour reads 12. -/
def c7TimeB : DT := ⟨1000, 3, 12, 2, 12, 30, 0⟩

/-- A clock that always returns `c7TimeA`. -/
def c7ClockA : ℕ → DT := fun _ => c7TimeA

/-- A clock that agrees with `c7ClockA` on the pass's first read (sample 0)
but returns `c7TimeB` for every later read. -/
def c7ClockB : ℕ → DT := fun n => if n = 0 then c7TimeA else c7TimeB

/-- Constant draw streams for the C7 counterexample. -/
def c7WDraws : ℕ → WDraws := fun _ => ⟨600, 1, 1/2⟩

/-- Constant trend draws for the C7 counterexample. -/
def c7TDraws : ℕ → TDraws := fun _ => ⟨10, 1⟩

/-- Constant appliance draws for the C7 counterexample. -/
def c7ADraws : ℕ → ADraws := fun _ => ⟨1/2, 60, 0, 1.2, 1.5, 2⟩

/-- Initial project state for the C7 counterexample: weather refreshed at the
current instant, trend change far in the future, no active appliance event,
appliance check rate-limited. -/
def c7State : GenState :=
  { weather := ⟨some 1000, 1⟩
    trend := ⟨1, 1000000000⟩
    appliance := ⟨false, none, 1⟩
    lastCheck := 1000
    history := [] }

/-! ### Helper lemmas -/

theorem roundHalfEven_le (q : ℚ) : (roundHalfEven q : ℚ) ≤ q + 1/2 := by
  have hf : (⌊q⌋ : ℚ) ≤ q := Int.floor_le q
  simp only [roundHalfEven]
  split_ifs with h1 h2 h3 <;> push_cast <;> linarith

theorem roundHalfEven_nonneg {q : ℚ} (h : 0 ≤ q) : 0 ≤ roundHalfEven q := by
  have hf : 0 ≤ ⌊q⌋ := Int.floor_nonneg.mpr h
  simp only [roundHalfEven]
  split_ifs <;> omega

theorem round2_le (q : ℚ) : round2 q ≤ q + 1/200 := by
  have h := roundHalfEven_le (q * 100)
  unfold round2
  linarith

theorem round2_nonneg {q : ℚ} (h : 0 ≤ q) : 0 ≤ round2 q := by
  have h1 : 0 ≤ roundHalfEven (q * 100) :=
    roundHalfEven_nonneg (by positivity)
  unfold round2
  have h2 : (0:ℚ) ≤ (roundHalfEven (q * 100) : ℚ) := by exact_mod_cast h1
  linarith

theorem baseSolarFactor_bounds (h : ℕ) :
    0 ≤ baseSolarFactor h ∧ baseSolarFactor h ≤ 0.75 := by
  rcases Nat.lt_or_ge h 24 with hlt | hge
  · interval_cases h <;> norm_num [baseSolarFactor]
  · obtain ⟨k, rfl⟩ : ∃ k, h = k + 24 := ⟨h - 24, by omega⟩
    norm_num [show baseSolarFactor (k + 24) = 0 from rfl]

theorem blend_bounds {a b r M : ℚ} (ha0 : 0 ≤ a) (haM : a ≤ M) (hb0 : 0 ≤ b)
    (hbM : b ≤ M) (hr0 : 0 ≤ r) (hr1 : r ≤ 1) :
    0 ≤ a * (1 - r) + b * r ∧ a * (1 - r) + b * r ≤ M := by
  constructor
  · have h1 : 0 ≤ a * (1 - r) := mul_nonneg ha0 (by linarith)
    have h2 : 0 ≤ b * r := mul_nonneg hb0 hr0
    linarith
  · nlinarith [mul_le_mul_of_nonneg_right haM (by linarith : (0:ℚ) ≤ 1 - r),
      mul_le_mul_of_nonneg_right hbM hr0]

theorem int_emod_thousand_bounds (n : ℤ) :
    (0:ℚ) ≤ ((n % 1000 : ℤ) : ℚ) / 1000 ∧
      ((n % 1000 : ℤ) : ℚ) / 1000 ≤ 999/1000 := by
  have h0 : 0 ≤ n % 1000 := Int.emod_nonneg n (by norm_num)
  have h1 : n % 1000 < 1000 := Int.emod_lt_of_pos n (by norm_num)
  have h0' : (0:ℚ) ≤ ((n % 1000 : ℤ) : ℚ) := by exact_mod_cast h0
  have h1' : ((n % 1000 : ℤ) : ℚ) ≤ 999 := by exact_mod_cast (by omega : n % 1000 ≤ 999)
  constructor <;> linarith

/-- The blended solar component of the temporal factors is non-negative and at
most `0.75 × 1.3` for any valid minute value. -/
theorem nb_solar_bounds (t : DT) (loc : Loc) (hm : t.minute < 60) :
    0 ≤ (get_nb_seasonal_factors t loc).solar ∧
      (get_nb_seasonal_factors t loc).solar ≤ 0.975 := by
  have hms : ((t.minute : ℚ)) ≤ 59 := by exact_mod_cast Nat.le_of_lt_succ hm
  have hm0 : (0:ℚ) ≤ (t.minute : ℚ) := Nat.cast_nonneg _
  have hdw := int_emod_thousand_bounds (((t.day : ℤ) + (t.month : ℤ) * 31) * 9973)
  simp only [get_nb_seasonal_factors]
  have hcur := baseSolarFactor_bounds t.hour
  have hprev := baseSolarFactor_bounds (t.hour - 1)
  have hnext := baseSolarFactor_bounds ((t.hour + 1) % 24)
  have hsf : 0 ≤ (if t.minute < 20 ∧ t.hour > 0 ∧ 0 < baseSolarFactor t.hour then
        baseSolarFactor t.hour * (1 - (20 - (t.minute : ℚ)) / 20) +
          baseSolarFactor (t.hour - 1) * ((20 - (t.minute : ℚ)) / 20)
      else if t.minute > 40 ∧ 0 < baseSolarFactor t.hour then
        baseSolarFactor t.hour * (1 - ((t.minute : ℚ) - 40) / 20) +
          baseSolarFactor ((t.hour + 1) % 24) * (((t.minute : ℚ) - 40) / 20)
      else baseSolarFactor t.hour) ∧
      (if t.minute < 20 ∧ t.hour > 0 ∧ 0 < baseSolarFactor t.hour then
        baseSolarFactor t.hour * (1 - (20 - (t.minute : ℚ)) / 20) +
          baseSolarFactor (t.hour - 1) * ((20 - (t.minute : ℚ)) / 20)
      else if t.minute > 40 ∧ 0 < baseSolarFactor t.hour then
        baseSolarFactor t.hour * (1 - ((t.minute : ℚ) - 40) / 20) +
          baseSolarFactor ((t.hour + 1) % 24) * (((t.minute : ℚ) - 40) / 20)
      else baseSolarFactor t.hour) ≤ 0.75 := by
    split_ifs with h1 h2
    · have hmlt : ((t.minute : ℚ)) < 20 := by exact_mod_cast h1.1
      exact blend_bounds hcur.1 hcur.2 hprev.1 hprev.2
        (by linarith) (by linarith)
    · have hmgt : (40:ℚ) < (t.minute : ℚ) := by exact_mod_cast h2.1
      exact blend_bounds hcur.1 hcur.2 hnext.1 hnext.2
        (by linarith) (by linarith)
    · exact hcur
  constructor
  · exact mul_nonneg hsf.1 (by linarith [hdw.1])
  · nlinarith [hsf.1, hsf.2, hdw.1, hdw.2]

/-- The jittered weather factor stays in `[0, 1.53]` whenever the stored
pattern is in its documented `[0.6, 1.5]` range, the jitter draw is a
`random()` value and the refresh interval draw is a `randint(300, 900)`
value. -/
theorem update_weather_bounds (t : DT) (d : WDraws) (s : WeatherState)
    (hp0 : 0.6 ≤ s.pattern) (hp1 : s.pattern ≤ 1.5)
    (hf0 : 0 ≤ d.fluct) (hf1 : d.fluct < 1) (hi : 300 ≤ d.interval) :
    0 ≤ (update_weather_pattern t d s).1 ∧
      (update_weather_pattern t d s).1 ≤ 1.53 := by
  have hminor0 : (0.98:ℚ) ≤ 0.98 + d.fluct * 0.04 := by nlinarith
  have hminor1 : (0.98:ℚ) + d.fluct * 0.04 ≤ 1.02 := by nlinarith
  have hpat : 0.6 ≤ ((update_weather_pattern t d s).2).pattern ∧
      ((update_weather_pattern t d s).2).pattern ≤ 1.5 := by
    rcases hlu : s.lastUpdate with _ | lu
    · simp only [update_weather_pattern, hlu]
      constructor
      · exact le_min (by norm_num) (le_max_left _ _)
      · exact min_le_left _ _
    · simp only [update_weather_pattern, hlu]
      split_ifs with hup

      · have hblend : min (1:ℚ) ((t.epoch - lu) / 180) = 1 := by
          have : (1:ℚ) ≤ (t.epoch - lu) / 180 := by
            rw [le_div_iff₀ (by norm_num : (0:ℚ) < 180)]
            linarith
          exact min_eq_left this
        rw [hblend]
        constructor
        · simp only [sub_self, mul_zero, mul_one, zero_add]
          exact le_min (by norm_num) (le_max_left _ _)
        · simp only [sub_self, mul_zero, mul_one, zero_add]
          exact min_le_left _ _
      · exact ⟨hp0, hp1⟩
  have hres : (update_weather_pattern t d s).1 =
      ((update_weather_pattern t d s).2).pattern * (0.98 + d.fluct * 0.04) := by
    rcases hlu : s.lastUpdate with _ | lu <;>
      simp only [update_weather_pattern, hlu]
  rw [hres]
  constructor
  · nlinarith [hpat.1]
  · nlinarith [hpat.1, hpat.2]

/-! ### Claim C2 -/

/-- Claim C2: `calculate_power_meter` returns
`round2 (max 0 (adjusted_load * noise_factor - effective_der_output))` where
`adjusted_load` is baseline load × usage factor × trend factor × appliance
event factor, the noise factor is `0.98 + ((second + minute*60) * 3 % 5)/100`,
and `effective_der_output` is the DER output divided by the violation
multiplier when violation mode is enabled (so for multiplier 1.5 the output
is divided by 1.5) and the unchanged DER output otherwise. -/
theorem C2_power_meter_formula (baseLoad derOutput : ℚ) (applyViolation : Bool)
    (multiplier : ℚ) (loc : Loc) (tF tT tA tN : DT) (td : TDraws) (ad : ADraws)
    (ts : TrendState) (ae : ApplianceEvent) (lastCheck : ℚ) :
    (calculate_power_meter baseLoad derOutput applyViolation multiplier loc
        tF tT tA tN td ad ts ae lastCheck).1 =
      round2 (max 0
        (baseLoad * (get_nb_seasonal_factors tF loc).usage
            * (update_consumption_trend tT td ts).1
            * (check_appliance_events tA ad ae lastCheck).1
            * (0.98 + ((((tN.second + tN.minute * 60) * 3) % 5 : ℕ) : ℚ) / 100)
          - (if applyViolation then derOutput / multiplier else derOutput))) :=
  rfl

/-! ### Claim C9 -/

/-- Claim C9: when `check_appliance_events` runs less than 30 seconds after
the previous check it returns the active event's magnitude (1.0 when no event
is active or its end time is not in the future) and leaves the event state
and the last-check timestamp untouched. -/
theorem C9_appliance_fast_path (t : DT) (d : ADraws) (s : ApplianceEvent)
    (lastCheck : ℚ) (h : t.epoch - lastCheck < 30) :
    check_appliance_events t d s lastCheck =
      ((if eventLive s t.epoch then s.magnitude else 1), s, lastCheck) := by
  simp only [check_appliance_events, if_pos h]

/-- Witness for C9 at a concrete fast-path call (10 seconds after the
previous check, with an active event ending at epoch 100). -/
theorem C9_appliance_fast_path_witness :
    ((10:ℚ) - 0 < 30) ∧
    check_appliance_events ⟨10, 3, 1, 0, 12, 0, 0⟩ ⟨1/2, 60, 0, 1.2, 1.5, 2⟩
        ⟨true, some 100, 1.2⟩ 0 =
      ((if eventLive ⟨true, some 100, 1.2⟩ 10 then (1.2:ℚ) else 1),
        (⟨true, some 100, 1.2⟩ : ApplianceEvent), 0) :=
  ⟨by norm_num,
    C9_appliance_fast_path ⟨10, 3, 1, 0, 12, 0, 0⟩ ⟨1/2, 60, 0, 1.2, 1.5, 2⟩
      ⟨true, some 100, 1.2⟩ 0 (by norm_num)⟩

/-! ### Claim C4 -/

/-- Counterexample to claim C4 as stated: for capacity 0.01 kW and SOC 95 the
rounded output is 0.01, which exceeds `0.8 × capacity = 0.008` — two-decimal
rounding is applied after the cap, so the cap can be overshot by up to half a
hundredth for fractional capacities. -/
theorem C4_battery_counterexample :
    ((0:ℚ) ≤ 1/100 ∧ (10:ℚ) ≤ 95 ∧ (95:ℚ) ≤ 100) ∧
    generate_battery_output (1/100) 95 .fredericton c4Time c4Time >
      0.8 * (1/100) := by
  refine ⟨⟨by norm_num, by norm_num, by norm_num⟩, ?_⟩
  norm_num [generate_battery_output, get_nb_seasonal_factors,
    batteryDischargeFactor, soc_factor, round2, roundHalfEven, c4Time,
    hourlyUsageFactor, baseHourlyFactor, locationFactor, evConnectionFactor,
    baseEvFactor, baseSolarFactor, weekendHourlyFactor, min_def, max_def]

/-- Claim C4 amended: battery output is exactly 0 for SOC < 10 and otherwise
never exceeds `0.8 × capacity` by more than the final two-decimal rounding
step can add, i.e. output ≤ 0.8 × capacity + 0.005. -/
theorem C4_battery_bound_amended (cap soc : ℚ) (loc : Loc) (tF tN : DT)
    (hcap : 0 ≤ cap) :
    (soc < 10 → generate_battery_output cap soc loc tF tN = 0) ∧
    generate_battery_output cap soc loc tF tN ≤ 0.8 * cap + 1/200 := by
  constructor
  · intro h
    simp [generate_battery_output, if_pos h]
  · by_cases h : soc < 10
    · simp only [generate_battery_output, if_pos h]
      linarith
    · simp only [generate_battery_output, if_neg h]
      refine le_trans (round2_le _) ?_
      have hm := min_le_right
        (cap * ((get_nb_seasonal_factors tF loc).battery * soc_factor soc)
          * (0.95 + ((tN.minute % 10 : ℕ) : ℚ) / 100)) (cap * 0.8)
      linarith

/-- Witness for the amended C4 at capacity 10, SOC 95. -/
theorem C4_battery_bound_amended_witness :
    ((0:ℚ) ≤ 10) ∧
    (((95:ℚ) < 10 → generate_battery_output 10 95 .fredericton c4Time c4Time = 0) ∧
      generate_battery_output 10 95 .fredericton c4Time c4Time ≤ 0.8 * 10 + 1/200) :=
  ⟨by norm_num,
    C4_battery_bound_amended 10 95 .fredericton c4Time c4Time (by norm_num)⟩

/-! ### Claim C8 -/

/-- Counterexample to claim C8 as stated: the SOC scaling factor at SOC = 100
is `0.5 + 100/200 = 1.0`, not 0.95 (0.95 is its value at SOC = 90). -/
theorem C8_soc_scaling_counterexample :
    soc_factor 100 = 1 ∧ soc_factor 100 ≠ 0.95 := by
  constructor <;> norm_num [soc_factor]

/-- Claim C8 amended: the SOC scaling factor is `soc/200 + 0.5`, linear in
SOC, taking 0.55 at SOC = 10, 0.95 at SOC = 90 and 1.0 at SOC = 100; for
SOC ≥ 10 the battery output is capacity × (base hourly discharge factor ×
this scaling factor) × a minute-granularity noise term
`0.95 + (minute mod 10)/100 ∈ [0.95, 1.04] ⊆ [0.95, 1.05]`, capped at
`0.8 × capacity` and rounded to two decimals. -/
theorem C8_soc_scaling_amended (cap soc : ℚ) (loc : Loc) (tF tN : DT)
    (h : ¬ soc < 10) :
    soc_factor soc = soc / 200 + 0.5 ∧
    soc_factor 10 = 0.55 ∧ soc_factor 90 = 0.95 ∧ soc_factor 100 = 1 ∧
    generate_battery_output cap soc loc tF tN =
      round2 (min (cap * ((get_nb_seasonal_factors tF loc).battery * soc_factor soc)
        * (0.95 + ((tN.minute % 10 : ℕ) : ℚ) / 100)) (cap * 0.8)) ∧
    0.95 ≤ 0.95 + ((tN.minute % 10 : ℕ) : ℚ) / 100 ∧
    0.95 + ((tN.minute % 10 : ℕ) : ℚ) / 100 ≤ 1.05 := by
  have hmod : ((tN.minute % 10 : ℕ) : ℚ) ≤ 9 := by
    exact_mod_cast Nat.le_of_lt_succ (Nat.mod_lt _ (by norm_num))
  have hmod0 : (0:ℚ) ≤ ((tN.minute % 10 : ℕ) : ℚ) := Nat.cast_nonneg _
  refine ⟨by unfold soc_factor; ring, by norm_num [soc_factor],
    by norm_num [soc_factor], by norm_num [soc_factor], ?_, by linarith, by linarith⟩
  simp only [generate_battery_output, if_neg h]

/-- Witness for the amended C8 at SOC 95. -/
theorem C8_soc_scaling_amended_witness :
    (¬ (95:ℚ) < 10) ∧
    (soc_factor 95 = 95 / 200 + 0.5 ∧
      soc_factor 10 = 0.55 ∧ soc_factor 90 = 0.95 ∧ soc_factor 100 = 1 ∧
      generate_battery_output 10 95 .moncton c4Time c4Time =
        round2 (min (10 * ((get_nb_seasonal_factors c4Time .moncton).battery * soc_factor 95)
          * (0.95 + ((c4Time.minute % 10 : ℕ) : ℚ) / 100)) (10 * 0.8)) ∧
      0.95 ≤ 0.95 + ((c4Time.minute % 10 : ℕ) : ℚ) / 100 ∧
      0.95 + ((c4Time.minute % 10 : ℕ) : ℚ) / 100 ≤ 1.05) :=
  ⟨by norm_num,
    C8_soc_scaling_amended 10 95 .moncton c4Time c4Time (by norm_num)⟩

/-! ### Claim C6 -/

theorem maxInterHourDelta_eq : maxInterHourDelta = 1/4 := by
  norm_num [maxInterHourDelta, List.range_succ, baseHourlyFactor,
    abs_eq_max_neg, max_def]

/-- At minute 0 of a non-zero hour the blended usage factor equals the
previous hour's table entry (the blend ratio is `(15 - 0)/15 = 1`). -/
theorem usage_minute0 (e : ℚ) (mo d wd H s : ℕ) (loc : Loc) (hh : 0 < H) :
    (get_nb_seasonal_factors ⟨e, mo, d, wd, H, 0, s⟩ loc).usage =
      hourlyUsageFactor (decide (wd ≥ 5)) (H - 1) * locationFactor loc := by
  simp only [get_nb_seasonal_factors]
  rw [if_pos ⟨by norm_num, hh⟩]
  push_cast
  ring

/-- At minute 0 of hour 0 no blending occurs (the `hour > 0` guard fails). -/
theorem usage_hour0_minute0 (e : ℚ) (mo d wd s : ℕ) (loc : Loc) :
    (get_nb_seasonal_factors ⟨e, mo, d, wd, 0, 0, s⟩ loc).usage =
      hourlyUsageFactor (decide (wd ≥ 5)) 0 * locationFactor loc := by
  simp only [get_nb_seasonal_factors]
  rw [if_neg (by omega), if_neg (by omega)]

/-- At minute 59 the blended usage factor is 1/15 of the current hour's entry
plus 14/15 of the next hour's entry. -/
theorem usage_minute59 (e : ℚ) (mo d wd H s : ℕ) (loc : Loc) :
    (get_nb_seasonal_factors ⟨e, mo, d, wd, H, 59, s⟩ loc).usage =
      hourlyUsageFactor (decide (wd ≥ 5)) H * locationFactor loc * (1/15) +
      hourlyUsageFactor (decide (wd ≥ 5)) ((H + 1) % 24) *
        locationFactor loc * (14/15) := by
  simp only [get_nb_seasonal_factors]
  rw [if_neg (by omega), if_pos (by omega)]
  push_cast
  ring

/-- Adjacent entries of the (weekday or weekend) usage table never differ by
more than 1/4, the maximum inter-hour delta. -/
theorem tableDelta_le (w : Bool) (k : ℕ) (hk : k < 24) :
    |hourlyUsageFactor w ((k + 1) % 24) - hourlyUsageFactor w k| ≤ 1/4 := by
  interval_cases k <;> cases w <;>
    norm_num [hourlyUsageFactor, weekendHourlyFactor, baseHourlyFactor, abs_le]

/-- Counterexample to claim C6 as stated: on a weekday in Fredericton the
usage factor at 06:59 is `0.85/15 + 1.10 × 14/15 = 13/12`, while at 07:00 the
blend restarts from the previous hour's entry 0.85, a jump of `7/30 ≈ 0.233`,
far above the claimed tolerance `maxInterHourDelta / 15 = 1/60`. -/
theorem C6_boundary_jump_counterexample :
    maxInterHourDelta / 15 <
      |(get_nb_seasonal_factors ⟨0, 3, 12, 2, 7, 0, 0⟩ .fredericton).usage -
        (get_nb_seasonal_factors ⟨0, 3, 12, 2, 6, 59, 0⟩ .fredericton).usage| := by
  have h1 : (get_nb_seasonal_factors ⟨0, 3, 12, 2, 7, 0, 0⟩ .fredericton).usage
      = 17/20 := by
    rw [usage_minute0 0 3 12 2 7 0 .fredericton (by norm_num)]
    norm_num [hourlyUsageFactor, baseHourlyFactor, locationFactor]
  have h2 : (get_nb_seasonal_factors ⟨0, 3, 12, 2, 6, 59, 0⟩ .fredericton).usage
      = 13/12 := by
    rw [usage_minute59 0 3 12 2 6 0 .fredericton]
    norm_num [hourlyUsageFactor, baseHourlyFactor, locationFactor]
  rw [maxInterHourDelta_eq, h1, h2,
    (show (17/20 : ℚ) - 13/12 = -(7/30) from by norm_num), abs_neg,
    abs_of_nonneg (by norm_num : (0:ℚ) ≤ 7/30)]
  norm_num

/-- Claim C6 amended: the code blends the last 15 minutes of hour h toward
hour h+1's entry but restarts hour h+1 at hour h's entry, so the jump across
an hour boundary is `14/15 × location_factor × |table(h) - table(h+1)|`
rather than staying within `maxInterHourDelta / 15`; the jump is bounded by
`14/15 × maxInterHourDelta × 1.02 = 0.238` for every hour (including the
23→0 wrap and the unblended start of hour 0), weekday flag and location. -/
theorem C6_boundary_jump_amended (h : Fin 24) (wd : ℕ) (loc : Loc) :
    |(get_nb_seasonal_factors ⟨0, 3, 12, wd, (h.val + 1) % 24, 0, 0⟩ loc).usage -
      (get_nb_seasonal_factors ⟨0, 3, 12, wd, h.val, 59, 0⟩ loc).usage| ≤
      14 / 15 * maxInterHourDelta * 1.02 := by
  have hlf0 : 0 ≤ locationFactor loc := by cases loc <;> norm_num [locationFactor]
  have hlf1 : locationFactor loc ≤ 1.02 := by cases loc <;> norm_num [locationFactor]
  rw [maxInterHourDelta_eq]
  rcases Nat.lt_or_ge h.val 23 with h23 | h23
  · have hmod : (h.val + 1) % 24 = h.val + 1 := Nat.mod_eq_of_lt (by omega)
    have hd := tableDelta_le (decide (wd ≥ 5)) h.val h.isLt
    rw [hmod] at hd
    rw [hmod, usage_minute0 0 3 12 wd (h.val + 1) 0 loc (Nat.succ_pos _),
      usage_minute59 0 3 12 wd h.val 0 loc, hmod, Nat.add_sub_cancel]
    have heq : hourlyUsageFactor (decide (wd ≥ 5)) h.val * locationFactor loc -
        (hourlyUsageFactor (decide (wd ≥ 5)) h.val * locationFactor loc * (1/15) +
          hourlyUsageFactor (decide (wd ≥ 5)) (h.val + 1) * locationFactor loc * (14/15)) =
        (14/15) * locationFactor loc *
          (hourlyUsageFactor (decide (wd ≥ 5)) h.val -
            hourlyUsageFactor (decide (wd ≥ 5)) (h.val + 1)) := by ring
    rw [heq, abs_mul, abs_mul,
      abs_of_nonneg (by norm_num : (0:ℚ) ≤ 14/15), abs_of_nonneg hlf0,
      abs_sub_comm]
    nlinarith [abs_nonneg (hourlyUsageFactor (decide (wd ≥ 5)) (h.val + 1) -
        hourlyUsageFactor (decide (wd ≥ 5)) h.val),
      mul_le_mul hlf1 hd (abs_nonneg _) (by norm_num : (0:ℚ) ≤ 1.02)]
  · have hval : h.val = 23 := by omega
    have hmod : (h.val + 1) % 24 = 0 := by omega
    have hd := tableDelta_le (decide (wd ≥ 5)) 23 (by norm_num)
    rw [(show (23 + 1) % 24 = 0 from by norm_num)] at hd
    rw [hmod, hval, usage_hour0_minute0 0 3 12 wd 0 loc,
      usage_minute59 0 3 12 wd 23 0 loc,
      (show (23 + 1) % 24 = 0 from by norm_num)]
    have heq : hourlyUsageFactor (decide (wd ≥ 5)) 0 * locationFactor loc -
        (hourlyUsageFactor (decide (wd ≥ 5)) 23 * locationFactor loc * (1/15) +
          hourlyUsageFactor (decide (wd ≥ 5)) 0 * locationFactor loc * (14/15)) =
        (1/15) * locationFactor loc *
          (hourlyUsageFactor (decide (wd ≥ 5)) 0 -
            hourlyUsageFactor (decide (wd ≥ 5)) 23) := by ring
    rw [heq, abs_mul, abs_mul,
      abs_of_nonneg (by norm_num : (0:ℚ) ≤ 1/15), abs_of_nonneg hlf0]
    nlinarith [abs_nonneg (hourlyUsageFactor (decide (wd ≥ 5)) 0 -
        hourlyUsageFactor (decide (wd ≥ 5)) 23),
      mul_le_mul hlf1 hd (abs_nonneg _) (by norm_num : (0:ℚ) ≤ 1.02)]

/-! ### Claim C3 -/

/-- Bounding the product `cap × solar × weather × noise` under the factor
bounds established above. -/
theorem solar_prod_bound {cap s wf nz : ℚ} (hcap : 0 ≤ cap) (hs0 : 0 ≤ s)
    (hs1 : s ≤ 0.975) (hw0 : 0 ≤ wf) (hw1 : wf ≤ 1.53) (hn0 : 0.97 ≤ nz)
    (hn1 : nz ≤ 1.02) : max 0 (cap * s * wf * nz) ≤ cap * 1.522 := by
  have h1 : cap * s ≤ cap * 0.975 := mul_le_mul_of_nonneg_left hs1 hcap
  have h1' : 0 ≤ cap * s := mul_nonneg hcap hs0
  have h2 : cap * s * wf ≤ cap * 0.975 * 1.53 :=
    mul_le_mul h1 hw1 hw0 (mul_nonneg hcap (by norm_num))
  have h2' : 0 ≤ cap * s * wf := mul_nonneg h1' hw0
  have h3 : cap * s * wf * nz ≤ cap * 0.975 * 1.53 * 1.02 :=
    mul_le_mul h2 hn1 (by linarith)
      (mul_nonneg (mul_nonneg hcap (by norm_num)) (by norm_num))
  have h4 : cap * 0.975 * 1.53 * 1.02 ≤ cap * 1.522 := by nlinarith
  exact max_le (by nlinarith) (by linarith)

/-- Counterexample to claim C3 as stated: with a fully legitimate state —
weather pattern 1.5 (its clamp maximum), jitter draw 0.99, March 19 at
12:30:05 — an 8 kW array yields 12.03 kW, far above `1.1 × 8 = 8.8`; the
claimed bound ignores the weather-pattern multiplier of up to 1.5. -/
theorem C3_solar_claim_counterexample :
    ((0:ℚ) ≤ 8 ∧ 0.6 ≤ c3Weather.pattern ∧ c3Weather.pattern ≤ 1.5 ∧
      0 ≤ c3Draws.fluct ∧ c3Draws.fluct < 1 ∧ 300 ≤ c3Draws.interval ∧
      c3Draws.interval ≤ 900 ∧ c3Time.minute < 60) ∧
    0 < (get_nb_seasonal_factors c3Time .fredericton).solar ∧
    (generate_solar_output 8 .fredericton c3Time c3Time c3Time c3Draws
        c3Weather).1 > 1.1 * 8 := by
  refine ⟨⟨by norm_num, by norm_num [c3Weather], by norm_num [c3Weather],
    by norm_num [c3Draws], by norm_num [c3Draws], by norm_num [c3Draws],
    by norm_num [c3Draws], by norm_num [c3Time]⟩, ?_, ?_⟩ <;>
    norm_num [generate_solar_output, update_weather_pattern,
      get_nb_seasonal_factors, baseSolarFactor, c3Time, c3Weather, c3Draws,
      round2, roundHalfEven, hourlyUsageFactor, baseHourlyFactor,
      locationFactor, evConnectionFactor, baseEvFactor, batteryDischargeFactor,
      weekendHourlyFactor, min_def, max_def]

/-- Claim C3 amended: solar output is 0 whenever the time-of-day solar factor
is ≤ 0, and otherwise is ≥ 0 and at most `capacity × 1.522 + 0.005` — the
product of the table maximum 0.75, the daily-weather scalar < 1.3, the
weather pattern ≤ 1.5, its jitter < 1.02 and the second-granularity noise
≤ 1.02, plus the final two-decimal rounding. -/
theorem C3_solar_bound_amended (cap : ℚ) (loc : Loc) (tF tW tN : DT)
    (d : WDraws) (ws : WeatherState)
    (hcap : 0 ≤ cap) (hp0 : 0.6 ≤ ws.pattern) (hp1 : ws.pattern ≤ 1.5)
    (hf0 : 0 ≤ d.fluct) (hf1 : d.fluct < 1) (hi : 300 ≤ d.interval)
    (hm : tF.minute < 60) :
    ((get_nb_seasonal_factors tF loc).solar ≤ 0 →
      (generate_solar_output cap loc tF tW tN d ws).1 = 0) ∧
    0 ≤ (generate_solar_output cap loc tF tW tN d ws).1 ∧
    (generate_solar_output cap loc tF tW tN d ws).1 ≤ cap * 1.522 + 1/200 := by
  have hs := nb_solar_bounds tF loc hm
  have hw := update_weather_bounds tW d ws hp0 hp1 hf0 hf1 hi
  have hn0 : (0.97:ℚ) ≤ 0.97 + ((tN.second % 6 : ℕ) : ℚ) / 100 := by
    have h0 : (0:ℚ) ≤ ((tN.second % 6 : ℕ) : ℚ) := Nat.cast_nonneg _
    linarith
  have hn1 : (0.97:ℚ) + ((tN.second % 6 : ℕ) : ℚ) / 100 ≤ 1.02 := by
    have h5 : ((tN.second % 6 : ℕ) : ℚ) ≤ 5 := by
      exact_mod_cast Nat.le_of_lt_succ (Nat.mod_lt _ (by norm_num))
    linarith
  by_cases hsol : (get_nb_seasonal_factors tF loc).solar ≤ 0
  · simp only [generate_solar_output, if_pos hsol]
    exact ⟨fun _ => by trivial, by norm_num, by nlinarith⟩
  · simp only [generate_solar_output, if_neg hsol]
    refine ⟨fun hc => absurd hc hsol, round2_nonneg (le_max_left _ _), ?_⟩
    refine le_trans (round2_le _) ?_
    have hb := solar_prod_bound hcap hs.1 hs.2 hw.1 hw.2 hn0 hn1
    linarith

/-- Witness for the amended C3 at the concrete counterexample inputs. -/
theorem C3_solar_bound_amended_witness :
    ((0:ℚ) ≤ 8 ∧ 0.6 ≤ c3Weather.pattern ∧ c3Weather.pattern ≤ 1.5 ∧
      0 ≤ c3Draws.fluct ∧ c3Draws.fluct < 1 ∧ 300 ≤ c3Draws.interval ∧
      c3Time.minute < 60) ∧
    (((get_nb_seasonal_factors c3Time .fredericton).solar ≤ 0 →
        (generate_solar_output 8 .fredericton c3Time c3Time c3Time c3Draws
          c3Weather).1 = 0) ∧
      0 ≤ (generate_solar_output 8 .fredericton c3Time c3Time c3Time c3Draws
        c3Weather).1 ∧
      (generate_solar_output 8 .fredericton c3Time c3Time c3Time c3Draws
        c3Weather).1 ≤ 8 * 1.522 + 1/200) :=
  ⟨⟨by norm_num, by norm_num [c3Weather], by norm_num [c3Weather],
    by norm_num [c3Draws], by norm_num [c3Draws], by norm_num [c3Draws],
    by norm_num [c3Time]⟩,
    C3_solar_bound_amended 8 .fredericton c3Time c3Time c3Time c3Draws
      c3Weather (by norm_num) (by norm_num [c3Weather]) (by norm_num [c3Weather])
      (by norm_num [c3Draws]) (by norm_num [c3Draws]) (by norm_num [c3Draws])
      (by norm_num [c3Time])⟩

/-! ### Claim C10 -/

theorem ev_rand_val_bounds (tF tD : DT) (loc : Loc) :
    0 ≤ ev_rand_val tF tD loc ∧ ev_rand_val tF tD loc ≤ 999/1000 := by
  simp only [ev_rand_val]
  exact int_emod_thousand_bounds _

/-- Counterexample to claim C10 as stated: at 20:20 on day 12 the EV is
connected (variate 0.5 < 0.6) in the evening peak band, and for capacity
0.03 kW the rounded output 0.01 exceeds `0.25 × 0.03 = 0.0075` — rounding to
two decimals overshoots the peak-band fraction bound. -/
theorem C10_ev_counterexample :
    ((0:ℚ) ≤ 3/100) ∧ ev_peak_hours c10Time c10Time ∧
    generate_ev_output (3/100) .fredericton c10Time c10Time c10Time c10Time >
      0.25 * (3/100) := by
  refine ⟨by norm_num, ?_, ?_⟩
  · right
    constructor <;> norm_num [c10Time]
  · norm_num [generate_ev_output, ev_rand_val, ev_peak_hours,
      get_nb_seasonal_factors, c10Time, round2, roundHalfEven,
      hourlyUsageFactor, baseHourlyFactor, locationFactor, evConnectionFactor,
      baseEvFactor, batteryDischargeFactor, baseSolarFactor,
      weekendHourlyFactor, min_def, max_def]

/-- Claim C10 amended: EV output is non-negative, 0 when the deterministic
connectivity decision is "not connected", and bounded by `0.25 × capacity`
(peak bands, hours 7–9 and 17–20) resp. `0.10 × capacity` (otherwise) only up
to the final two-decimal rounding, which can add up to 0.005. -/
theorem C10_ev_bounds_amended (cap : ℚ) (loc : Loc) (t : DT) (hcap : 0 ≤ cap) :
    0 ≤ generate_ev_output cap loc t t t t ∧
    generate_ev_output cap loc t t t t ≤ 0.25 * cap + 1/200 ∧
    (¬ ev_rand_val t t loc < (get_nb_seasonal_factors t loc).ev →
      generate_ev_output cap loc t t t t = 0) ∧
    (ev_peak_hours t t →
      generate_ev_output cap loc t t t t ≤ 0.25 * cap + 1/200) ∧
    (¬ ev_peak_hours t t →
      generate_ev_output cap loc t t t t ≤ 0.10 * cap + 1/200) := by
  obtain ⟨hr0, hr1⟩ := ev_rand_val_bounds t t loc
  by_cases hc : ev_rand_val t t loc < (get_nb_seasonal_factors t loc).ev
  · have hne : ¬¬ (ev_rand_val t t loc < (get_nb_seasonal_factors t loc).ev) :=
      not_not_intro hc
    by_cases hp : ev_peak_hours t t
    · have hout : generate_ev_output cap loc t t t t =
          round2 (cap * (0.15 + ev_rand_val t t loc * 0.1)) := by
        simp only [generate_ev_output, if_neg hne, if_pos hp]
      have hv0 : (0:ℚ) ≤ 0.15 + ev_rand_val t t loc * 0.1 := by linarith
      have hv1 : (0.15:ℚ) + ev_rand_val t t loc * 0.1 ≤ 0.25 := by linarith
      have hb : cap * (0.15 + ev_rand_val t t loc * 0.1) ≤ 0.25 * cap := by
        nlinarith [mul_le_mul_of_nonneg_left hv1 hcap]
      have hbnd : generate_ev_output cap loc t t t t ≤ 0.25 * cap + 1/200 := by
        rw [hout]
        refine le_trans (round2_le _) ?_
        linarith
      exact ⟨by rw [hout]; exact round2_nonneg (mul_nonneg hcap hv0), hbnd,
        fun hcon => absurd hc hcon, fun _ => hbnd, fun hnp => absurd hp hnp⟩
    · have hout : generate_ev_output cap loc t t t t =
          round2 (cap * (0.05 + ev_rand_val t t loc * 0.05)) := by
        simp only [generate_ev_output, if_neg hne, if_neg hp]
      have hv0 : (0:ℚ) ≤ 0.05 + ev_rand_val t t loc * 0.05 := by linarith
      have hv1 : (0.05:ℚ) + ev_rand_val t t loc * 0.05 ≤ 0.10 := by linarith
      have hb : cap * (0.05 + ev_rand_val t t loc * 0.05) ≤ 0.10 * cap := by
        nlinarith [mul_le_mul_of_nonneg_left hv1 hcap]
      have hbnd10 : generate_ev_output cap loc t t t t ≤ 0.10 * cap + 1/200 := by
        rw [hout]
        refine le_trans (round2_le _) ?_
        linarith
      have hbnd25 : generate_ev_output cap loc t t t t ≤ 0.25 * cap + 1/200 := by
        nlinarith [hbnd10]
      exact ⟨by rw [hout]; exact round2_nonneg (mul_nonneg hcap hv0), hbnd25,
        fun hcon => absurd hc hcon, fun _ => hbnd25, fun _ => hbnd10⟩
  · have hout : generate_ev_output cap loc t t t t = 0 := by
      simp only [generate_ev_output, if_pos hc]
    refine ⟨by rw [hout], by rw [hout]; nlinarith, fun _ => hout,
      fun _ => by rw [hout]; nlinarith, fun _ => by rw [hout]; nlinarith⟩

/-- Witness for the amended C10 at the concrete counterexample inputs. -/
theorem C10_ev_bounds_amended_witness :
    ((0:ℚ) ≤ 3/100) ∧
    (0 ≤ generate_ev_output (3/100) .fredericton c10Time c10Time c10Time c10Time ∧
      generate_ev_output (3/100) .fredericton c10Time c10Time c10Time c10Time ≤
        0.25 * (3/100) + 1/200 ∧
      (¬ ev_rand_val c10Time c10Time .fredericton <
          (get_nb_seasonal_factors c10Time .fredericton).ev →
        generate_ev_output (3/100) .fredericton c10Time c10Time c10Time c10Time = 0) ∧
      (ev_peak_hours c10Time c10Time →
        generate_ev_output (3/100) .fredericton c10Time c10Time c10Time c10Time ≤
          0.25 * (3/100) + 1/200) ∧
      (¬ ev_peak_hours c10Time c10Time →
        generate_ev_output (3/100) .fredericton c10Time c10Time c10Time c10Time ≤
          0.10 * (3/100) + 1/200)) :=
  ⟨by norm_num,
    C10_ev_bounds_amended (3/100) .fredericton c10Time (by norm_num)⟩

/-! ### Claims C1 and C7: pass-level lemmas -/

/-- One DER step never touches the project's reading history. -/
theorem generate_der_record_history (ctrl : Controller) (v : Bool) (m : ℚ)
    (t0 : DT) (clock : ℕ → DT) (wdr : WDraws) (tdr : TDraws) (adr : ADraws)
    (k : ℕ) (st : GenState) (der : DERSpec) :
    ((generate_der_record ctrl v m t0 clock wdr tdr adr k st der).2.1).history
      = st.history := rfl

/-- Every record a DER step emits is stamped with the pass timestamp `t0`. -/
theorem generate_der_record_timestamp (ctrl : Controller) (v : Bool) (m : ℚ)
    (t0 : DT) (clock : ℕ → DT) (wdr : WDraws) (tdr : TDraws) (adr : ADraws)
    (k : ℕ) (st : GenState) (der : DERSpec) :
    (generate_der_record ctrl v m t0 clock wdr tdr adr k st der).1.timestamp
      = t0 := rfl

theorem generate_data_fold_history (ctrl : Controller) (v : Bool) (m : ℚ)
    (t0 : DT) (clock : ℕ → DT) (wd : ℕ → WDraws) (td : ℕ → TDraws)
    (ad : ℕ → ADraws) (ders : List DERSpec) :
    ∀ acc : List DERData × GenState × ℕ × ℕ,
      ((ders.foldl (generate_data_step ctrl v m t0 clock wd td ad) acc).2.1).history
        = acc.2.1.history := by
  induction ders with
  | nil =>
    intro acc
    rfl
  | cons der ds ih =>
    intro acc
    rw [List.foldl_cons, ih]
    exact generate_der_record_history ctrl v m t0 clock (wd acc.2.2.2)
      (td acc.2.2.2) (ad acc.2.2.2) acc.2.2.1 acc.2.1 der

theorem generate_data_fold_timestamps (ctrl : Controller) (v : Bool) (m : ℚ)
    (t0 : DT) (clock : ℕ → DT) (wd : ℕ → WDraws) (td : ℕ → TDraws)
    (ad : ℕ → ADraws) (ders : List DERSpec) :
    ∀ acc : List DERData × GenState × ℕ × ℕ,
      ((ders.foldl (generate_data_step ctrl v m t0 clock wd td ad) acc).1).map
          (fun r => r.timestamp)
        = acc.1.map (fun r => r.timestamp) ++ List.replicate ders.length t0 := by
  induction ders with
  | nil =>
    intro acc
    simp
  | cons der ds ih =>
    intro acc
    rw [List.foldl_cons, ih]
    simp only [generate_data_step, List.map_append, List.append_assoc,
      List.replicate_succ, List.length_cons, List.map_cons, List.map_nil,
      generate_der_record_timestamp]
    rfl

/-! ### Claim C1 -/

/-- Claim C1: the value appended to the project's reading history by a
generation pass is exactly the pair of the pass timestamp and the sum of
`power_meter_measurement - current_output` over the records emitted in that
pass, with no other transformation. -/
theorem C1_net_consumption_recorded (ctrl : Controller) (v : Bool) (m : ℚ)
    (clock : ℕ → DT) (wd : ℕ → WDraws) (td : ℕ → TDraws) (ad : ℕ → ADraws)
    (st : GenState) :
    ((generate_data ctrl v m clock wd td ad st).2).history =
      readingsPush st.history (clock 0,
        (((generate_data ctrl v m clock wd td ad st).1).map
          (fun item => item.powerMeter - item.currentOutput)).sum) := by
  have h : ((ctrl.ders.foldl
      (generate_data_step ctrl v m (clock 0) clock wd td ad)
      ([], st, 1, 0)).2.1).history = st.history :=
    generate_data_fold_history ctrl v m (clock 0) clock wd td ad ctrl.ders
      ([], st, 1, 0)
  simp only [generate_data]
  rw [h]

/-! ### Claim C5 -/

/-- Pushing through `readingsPush` keeps exactly the most recent 300 entries:
folding any batch `xs` onto a buffer `l` of at most 300 entries leaves the
last 300 elements of `l ++ xs`, in arrival order. -/
theorem readingsPush_foldl (xs : List (DT × ℚ)) :
    ∀ l : List (DT × ℚ), l.length ≤ 300 →
      xs.foldl readingsPush l = (l ++ xs).drop ((l ++ xs).length - 300) := by
  induction xs with
  | nil =>
    intro l hl
    simp [Nat.sub_eq_zero_of_le hl]
  | cons x xs ih =>
    intro l hl
    rw [List.foldl_cons]
    by_cases h : l.length ≥ 300
    · have h300 : l.length = 300 := le_antisymm hl h
      have hne : l ≠ [] := by
        intro h0
        rw [h0] at h300
        simp at h300
      obtain ⟨a, l2, rfl⟩ := List.exists_cons_of_ne_nil hne
      have hlen : l2.length = 299 := by
        simp at h300
        omega
      have hstep : readingsPush (a :: l2) x = l2 ++ [x] := by
        simp only [readingsPush, if_pos h, List.tail_cons]
      have hlen2 : (l2 ++ [x]).length ≤ 300 := by
        simp
        omega
      rw [hstep, ih (l2 ++ [x]) hlen2]
      have e1 : (l2 ++ [x] ++ xs).length - 300 = xs.length := by
        simp
        omega
      have e2 : ((a :: l2) ++ x :: xs).length - 300 = xs.length + 1 := by
        simp
        omega
      rw [e1, e2, List.cons_append, List.drop_succ_cons,
        (show l2 ++ [x] ++ xs = l2 ++ x :: xs from by simp)]
    · have hstep : readingsPush l x = l ++ [x] := by
        simp only [readingsPush, if_neg h]
      have hlen2 : (l ++ [x]).length ≤ 300 := by
        simp
        omega
      rw [hstep, ih (l ++ [x]) hlen2]
      simp [List.append_assoc]

/-- Claim C5: starting from the empty buffer `generate_data` passes create,
any sequence of pushes leaves at most 300 entries, and the buffer always
holds exactly the most recent 300 pushes in FIFO order (the oldest entries
are the ones evicted once more than 300 pushes have occurred). -/
theorem C5_reading_history_fifo (xs : List (DT × ℚ)) :
    (xs.foldl readingsPush []).length ≤ 300 ∧
    xs.foldl readingsPush [] = xs.drop (xs.length - 300) := by
  have h := readingsPush_foldl xs [] (by simp)
  simp only [List.nil_append] at h
  refine ⟨?_, h⟩
  rw [h]
  simp
  omega

/-! ### Claim C7 -/

set_option maxHeartbeats 4000000 in
/-- Counterexample to claim C7 as stated: two clocks that agree on the pass's
first read (`c7TimeA`, 18:30) but differ on every later read produce
different outputs for `CONTROLLERS[0]` — the first battery's discharge factor
is taken from a fresh `datetime.now()` (hour 18 vs hour 12), so the current
time is NOT read exactly once and threaded through the pass. -/
theorem C7_single_read_counterexample :
    c7ClockA 0 = c7ClockB 0 ∧
    (generate_data controller0 false 1.5 c7ClockA c7WDraws c7TDraws c7ADraws
        c7State).1.map (fun r => r.currentOutput) ≠
      (generate_data controller0 false 1.5 c7ClockB c7WDraws c7TDraws c7ADraws
        c7State).1.map (fun r => r.currentOutput) := by
  constructor
  · norm_num [c7ClockA, c7ClockB]
  · norm_num [generate_data, generate_data_step, generate_der_record,
      controller0, c7ClockA, c7ClockB, c7TimeA, c7TimeB, c7WDraws, c7TDraws,
      c7ADraws, c7State, generate_solar_output, generate_battery_output,
      generate_ev_output, calculate_power_meter, update_weather_pattern,
      update_consumption_trend, check_appliance_events, eventLive, compute_soc,
      soc_factor, ev_rand_val, ev_peak_hours, get_nb_seasonal_factors, round2,
      roundHalfEven, readingsPush, hourlyUsageFactor, baseHourlyFactor,
      weekendHourlyFactor, locationFactor, evConnectionFactor, baseEvFactor,
      batteryDischargeFactor, baseSolarFactor, min_def, max_def]

/-- Claim C7 amended: only the emitted records' `timestamp` fields (and the
SOC inputs and the history entry, which share that value) come from the
single read at the start of the pass — every record of every pass is stamped
with clock sample 0 — while the temporal factors, cache updates, DER outputs
and noise terms each re-read the clock at their own call sites. -/
theorem C7_timestamps_amended (ctrl : Controller) (v : Bool) (m : ℚ)
    (clock : ℕ → DT) (wd : ℕ → WDraws) (td : ℕ → TDraws) (ad : ℕ → ADraws)
    (st : GenState) :
    ((generate_data ctrl v m clock wd td ad st).1).map (fun r => r.timestamp)
      = List.replicate ctrl.ders.length (clock 0) := by
  have h := generate_data_fold_timestamps ctrl v m (clock 0) clock wd td ad
    ctrl.ders ([], st, 1, 0)
  simpa [generate_data] using h

end MockController
